import Mathlib

/-!
Shallow embedding of the NYC taxi trip pipeline (Bronze build and Silver
split).  Dataframe columns become `Option`-valued record fields (a `none`
is a null cell); the engine's three-valued boolean logic (Kleene logic,
as used by polars expressions) is modelled explicitly; money and distance
values are rationals, timestamps are microseconds since the epoch as
integers.  Each definition is translated from the corresponding function
in `scripts/bronze_build.py`, `scripts/common.py` or
`scripts/silver_split.py`.
-/

/-! ### Kleene three-valued logic (null-propagating boolean expressions) -/

/-- Kleene conjunction on nullable booleans, as used by `&` in the engine. -/
def kand : Option Bool → Option Bool → Option Bool
  | some false, _ => some false
  | _, some false => some false
  | some true, some true => some true
  | _, _ => none

/-- Kleene disjunction on nullable booleans, as used by `|` in the engine. -/
def kor : Option Bool → Option Bool → Option Bool
  | some true, _ => some true
  | _, some true => some true
  | some false, some false => some false
  | _, _ => none

/-- Kleene negation on nullable booleans, as used by `~` in the engine. -/
def knot : Option Bool → Option Bool := Option.map not

/-- `fill_null(False)`: coalesce a nullable boolean to a strict boolean. -/
def fillF (x : Option Bool) : Bool := x.getD false

/-- Null-propagating strict comparison `a < b` on nullable values. -/
def oLT {α : Type} [LinearOrder α] : Option α → Option α → Option Bool
  | some a, some b => some (decide (a < b))
  | _, _ => none

/-- Null-propagating comparison `a <= b` on nullable values. -/
def oLE {α : Type} [LinearOrder α] : Option α → Option α → Option Bool
  | some a, some b => some (decide (a ≤ b))
  | _, _ => none

/-- `is_null()` : a non-null boolean even on null input. -/
def oIsNull {α : Type} (x : Option α) : Option Bool := some x.isNone

/-- `is_in(list)` : null input gives null output. -/
def oIsIn (x : Option Int) (l : List Int) : Option Bool :=
  x.map (fun v => decide (v ∈ l))

/-- `is_between(lo, hi)` with both ends closed (the default). -/
def oBetweenCC {α : Type} [LinearOrder α] (x : Option α) (lo hi : α) : Option Bool :=
  x.map (fun v => decide (lo ≤ v) && decide (v ≤ hi))

/-- `is_between(lo, hi, closed="right")` : `lo < v ≤ hi`. -/
def oBetweenRC {α : Type} [LinearOrder α] (x : Option α) (lo hi : α) : Option Bool :=
  x.map (fun v => decide (lo < v) && decide (v ≤ hi))

/-! ### The canonicalized record

One trip record after `canonicalize` / `ensure_money_columns` /
the contract casts in `build_bronze` (bronze_build.py lines 212-233):
every pre-derivation contract column is present; any cell may be null. -/

structure CanonRow where
  vendor_id : Option Int
  pickup_at : Option Int
  dropoff_at : Option Int
  passenger_count : Option Int
  trip_distance_mi : Option ℚ
  rate_code_id : Option Int
  store_and_fwd_flag : Option String
  pu_location_id : Option Int
  do_location_id : Option Int
  payment_type : Option Int
  fare_amount : Option ℚ
  extra : Option ℚ
  mta_tax : Option ℚ
  tip_amount : Option ℚ
  tolls_amount : Option ℚ
  improvement_surcharge : Option ℚ
  total_amount : Option ℚ
  congestion_surcharge : Option ℚ
  airport_fee : Option ℚ
  cbd_congestion_fee : Option ℚ
  source_file : String
deriving DecidableEq

/-! ### Reference window (bronze_build.py `file_window`, lines 74-77)

`datetime(year, month, 1)` is embedded as microseconds since the Unix
epoch via the standard civil-from-days algorithm (the same arithmetic the
Python datetime library performs). -/

def usPerDay : Int := 86400000000

/-- Days from 1970-01-01 to the civil date `(y, m, d)`. -/
def daysFromCivil (y m d : Int) : Int :=
  let y2 := if m ≤ 2 then y - 1 else y
  let era := (if 0 ≤ y2 then y2 else y2 - 399) / 400
  let yoe := y2 - era * 400
  let mp := (m + 9) % 12
  let doy := (153 * mp + 2) / 5 + d - 1
  let doe := yoe * 365 + yoe / 4 - yoe / 100 + doy
  era * 146097 + doe - 719468

/-- `datetime(y, m, d)` as microseconds since the epoch. -/
def usOfCivil (y m d : Int) : Int := daysFromCivil y m d * usPerDay

/-- `file_window(year, month)`: `[first-of-month - 2 days, first-of-next-month + 2 days]`. -/
def file_window (y m : Int) : Int × Int :=
  let start := usOfCivil y m 1
  let nextStart := if m = 12 then usOfCivil (y + 1) 1 1 else usOfCivil y (m + 1) 1
  (start - 2 * usPerDay, nextStart + 2 * usPerDay)

/-! ### Derivations and QA flags
(bronze_build.py `compute_derivations_and_flags`, lines 86-149) -/

/-- `duration_min`: `(dropoff_at - pickup_at)` in microseconds divided by
`60_000_000` (true division, so a rational); null when either timestamp
is null. -/
def durationMin (r : CanonRow) : Option ℚ :=
  match r.dropoff_at, r.pickup_at with
  | some d, some p => some (((d - p : Int) : ℚ) / 60000000)
  | _, _ => none

/-- `speed_mph`: `when(duration_min > 0).then(60 * trip_distance_mi / duration_min).otherwise(None)`.
A null condition selects the otherwise branch; a null distance makes the
then branch null. -/
def speedMph (r : CanonRow) : Option ℚ :=
  match durationMin r with
  | some d => if 0 < d then r.trip_distance_mi.map (fun x => 60 * x / d) else none
  | none => none

/-- `manualTotal`: sum of the nine monetary components, each
`fill_null(0.0)`, in the source's order (tip last). -/
def manualTotal (r : CanonRow) : ℚ :=
  r.fare_amount.getD 0 + r.extra.getD 0 + r.mta_tax.getD 0
    + r.tolls_amount.getD 0 + r.improvement_surcharge.getD 0
    + r.congestion_surcharge.getD 0 + r.airport_fee.getD 0
    + r.cbd_congestion_fee.getD 0 + r.tip_amount.getD 0

/-- `qa_in_file_window`: both timestamps within the file window (both
ends closed), then `fill_null(False)`. -/
def qa_in_file_window (r : CanonRow) (y m : Int) : Bool :=
  fillF (kand (oBetweenCC r.pickup_at (file_window y m).1 (file_window y m).2)
              (oBetweenCC r.dropoff_at (file_window y m).1 (file_window y m).2))

/-- `qa_outlier_distance`: `~trip_distance_mi.is_between(0, 150, closed="right")`,
then `fill_null(False)`. -/
def qa_outlier_distance (r : CanonRow) : Bool :=
  fillF (knot (oBetweenRC r.trip_distance_mi 0 150))

/-- `qa_outlier_speed`: `(duration_min < 1) | (duration_min > 360) | (speed_mph > 80)`,
then `fill_null(False)`. -/
def qa_outlier_speed (r : CanonRow) : Bool :=
  fillF (kor (kor (oLT (durationMin r) (some 1)) (oLT (some 360) (durationMin r)))
             (oLT (some 80) (speedMph r)))

/-- `qa_is_fare_mismatch`: `(manualTotal - total_amount).abs() > 0.50`,
then `fill_null(False)`. -/
def qa_is_fare_mismatch (r : CanonRow) : Bool :=
  fillF (r.total_amount.map (fun t => decide ((1 : ℚ) / 2 < |manualTotal r - t|)))

/-- `qa_is_adjustment` (bronze_build.py lines 129-140): total negative, or
one of eight monetary components negative (the source does not test
`tip_amount`), or `payment_type.is_in([3, 4, 6])`; then `fill_null(False)`. -/
def qa_is_adjustment (r : CanonRow) : Bool :=
  fillF (kor (kor (kor (kor (kor (kor (kor (kor (kor
    (oLT r.total_amount (some 0))
    (oLT r.fare_amount (some 0)))
    (oLT r.extra (some 0)))
    (oLT r.mta_tax (some 0)))
    (oLT r.tolls_amount (some 0)))
    (oLT r.improvement_surcharge (some 0)))
    (oLT r.congestion_surcharge (some 0)))
    (oLT r.airport_fee (some 0)))
    (oLT r.cbd_congestion_fee (some 0)))
    (oIsIn r.payment_type [3, 4, 6]))

/-! ### Duplicate key and per-file dedup
(bronze_build.py `build_dup_key` lines 151-172, `build_bronze` lines 238-243)

The source hashes a fixed seven-field tuple with a fixed seed (42) into a
string.  The hash is a fixed deterministic function of the tuple; the
embedding keeps the tuple itself as the key (an injective stable
encoding).  No claim depends on hash collisions, which the source
documents as accepted risk. -/

structure DupKey where
  vendor_id : Option Int
  pickup_at : Option Int
  dropoff_at : Option Int
  pu_location_id : Option Int
  do_location_id : Option Int
  fare_amount : Option ℚ
  trip_distance_mi : Option ℚ
deriving DecidableEq

def dupKeyOf (r : CanonRow) : DupKey :=
  { vendor_id := r.vendor_id
    pickup_at := r.pickup_at
    dropoff_at := r.dropoff_at
    pu_location_id := r.pu_location_id
    do_location_id := r.do_location_id
    fare_amount := r.fare_amount
    trip_distance_mi := r.trip_distance_mi }

/-! ### The Bronze contract row: base fields plus derived fields, QA flags,
dup key and lineage (the full `CONTRACT_DTYPES` shape, bronze_build.py
lines 15-55).  `cast_and_select_contract` casts to types the model already
carries and fixes the column order, which a record type does not observe. -/

structure BronzeRow where
  base : CanonRow
  manualTotal : ℚ
  duration_min : Option ℚ
  speed_mph : Option ℚ
  qa_in_file_window : Bool
  qa_outlier_distance : Bool
  qa_outlier_speed : Bool
  qa_is_fare_mismatch : Bool
  qa_is_adjustment : Bool
  dup_key : DupKey
  qa_is_duplicate_in_file : Bool
  source_year : Int
  source_month : Int
deriving DecidableEq

/-- Canonicalize, derive and key one record of one file (wraps the
per-record effect of bronze_build.py lines 206-239 and 248-251; the
lineage year/month literals commute with the row-wise steps). -/
def deriveRow (r : CanonRow) (y m : Int) (fname : String) : BronzeRow :=
  { base := { r with source_file := fname }
    manualTotal := manualTotal { r with source_file := fname }
    duration_min := durationMin { r with source_file := fname }
    speed_mph := speedMph { r with source_file := fname }
    qa_in_file_window := qa_in_file_window { r with source_file := fname } y m
    qa_outlier_distance := qa_outlier_distance { r with source_file := fname }
    qa_outlier_speed := qa_outlier_speed { r with source_file := fname }
    qa_is_fare_mismatch := qa_is_fare_mismatch { r with source_file := fname }
    qa_is_adjustment := qa_is_adjustment { r with source_file := fname }
    dup_key := dupKeyOf { r with source_file := fname }
    qa_is_duplicate_in_file := false
    source_year := y
    source_month := m }

/-! Sort order used before dedup:
`sort(["dup_key", "pickup_at", "dropoff_at", "source_file"], nulls_last=True)`.
The source compares the string form of the hash; the model compares the
key tuple lexicographically (a fixed total preorder; no claim depends on
the relative order of distinct keys). -/

def cmpOpt {α : Type} (f : α → α → Ordering) : Option α → Option α → Ordering
  | none, none => .eq
  | none, some _ => .gt
  | some _, none => .lt
  | some a, some b => f a b

def dupKeyCmp (a b : DupKey) : Ordering :=
  (cmpOpt compare a.vendor_id b.vendor_id).then
  ((cmpOpt compare a.pickup_at b.pickup_at).then
  ((cmpOpt compare a.dropoff_at b.dropoff_at).then
  ((cmpOpt compare a.pu_location_id b.pu_location_id).then
  ((cmpOpt compare a.do_location_id b.do_location_id).then
  ((cmpOpt compare a.fare_amount b.fare_amount).then
  (cmpOpt compare a.trip_distance_mi b.trip_distance_mi))))))

def rowCmp (a b : BronzeRow) : Ordering :=
  (dupKeyCmp a.dup_key b.dup_key).then
  ((cmpOpt compare a.base.pickup_at b.base.pickup_at).then
  ((cmpOpt compare a.base.dropoff_at b.base.dropoff_at).then
  (compare a.base.source_file b.base.source_file)))

def rowLE (a b : BronzeRow) : Prop := rowCmp a b ≠ Ordering.gt

instance : DecidableRel rowLE := fun a b => by
  unfold rowLE
  infer_instance

/-- `is_duplicated` on the `dup_key` column: true for every row whose key
occurs more than once in the file (including the first occurrence). -/
def markDup (all : List BronzeRow) (r : BronzeRow) : BronzeRow :=
  { r with qa_is_duplicate_in_file := decide (2 ≤ all.countP (fun s => decide (s.dup_key = r.dup_key))) }

/-! ### Filename parsing (bronze_build.py lines 67-72)

`re.search(r"(\d{4})-(\d{2})", name)`: the leftmost position where four
digits, a hyphen and two digits appear. -/

def digitVal (c : Char) : Nat := c.toNat - 48

def matchYMAt : List Char → Option (Int × Int)
  | a :: b :: c :: d :: h :: e :: f :: _ =>
    if a.isDigit && b.isDigit && c.isDigit && d.isDigit && (h == '-') && e.isDigit && f.isDigit then
      some (Int.ofNat (digitVal a * 1000 + digitVal b * 100 + digitVal c * 10 + digitVal d),
            Int.ofNat (digitVal e * 10 + digitVal f))
    else none
  | _ => none

def scanYM : List Char → Option (Int × Int)
  | [] => none
  | c :: rest =>
    match matchYMAt (c :: rest) with
    | some x => some x
    | none => scanYM rest

def parse_year_month_from_filename (name : String) : Option (Int × Int) :=
  scanYM name.toList

/-! ### Bronze build (bronze_build.py `build_bronze`, lines 183-276) -/

structure RawFile where
  name : String
  rows : List CanonRow
deriving DecidableEq

/-- Process one input file: parse the window from the name (fatal when
absent), canonicalize/derive/key each record, sort by
(dup_key, pickup, dropoff, source_file) with nulls last, mark every row
whose key is non-unique in the file, and keep the unmarked rows. -/
def processFile (f : RawFile) : Except String (List BronzeRow) :=
  match parse_year_month_from_filename f.name with
  | none => .error ("Cannot parse year-month from file name: " ++ f.name)
  | some (y, m) =>
    let derived := f.rows.map (fun r => deriveRow r y m f.name)
    let sorted := List.insertionSort rowLE derived
    let marked := sorted.map (fun r => markDup sorted r)
    .ok (marked.filter (fun r => ! r.qa_is_duplicate_in_file))

/-- Append each file's kept rows to the growing artifact, aborting the
run on the first per-file error. -/
def processAll : List RawFile → Except String (List BronzeRow)
  | [] => .ok []
  | f :: rest =>
    match processFile f with
    | .error e => .error e
    | .ok rows =>
      match processAll rest with
      | .error e => .error e
      | .ok more => .ok (rows ++ more)

def fileLE (a b : RawFile) : Prop := a.name ≤ b.name

instance : DecidableRel fileLE := fun a b => by
  unfold fileLE
  infer_instance

instance : IsTotal RawFile fileLE := ⟨fun a b => le_total a.name b.name⟩

instance : IsTrans RawFile fileLE := ⟨fun _ _ _ hab hbc => le_trans hab hbc⟩

/-- `build_bronze`: fatal when the directory holds no files; otherwise
process the files in sorted filename order.  Any pre-existing output
artifact is deleted before the first write (lines 192-194), so the prior
artifact contents never reach the result. -/
def build_bronze (files : List RawFile) (_priorArtifact : List BronzeRow) :
    Except String (List BronzeRow) :=
  if files.isEmpty then .error "No parquet files found"
  else processAll (List.insertionSort fileLE files)

/-- Row count of a written artifact (zero when the run aborted). -/
def artifactRowCount : Except String (List BronzeRow) → Nat
  | .ok rows => rows.length
  | .error _ => 0

/-- Aggregate revenue over the written rows. -/
def artifactRevenue : Except String (List BronzeRow) → ℚ
  | .ok rows => (rows.map (fun r => r.base.total_amount.getD 0)).sum
  | .error _ => 0

/-! ### Silver split (silver_split.py `split_silver`, lines 32-153)

One Bronze artifact row as Silver reads it back: the fields that the
rule flags consult, each still nullable (the defensive normalization at
lines 68-81 re-coalesces the QA flags). -/

structure SilverInRow where
  pickup_at : Option Int
  dropoff_at : Option Int
  trip_distance_mi : Option ℚ
  total_amount : Option ℚ
  pu_location_id : Option Int
  do_location_id : Option Int
  qa_in_file_window : Option Bool
  qa_outlier_distance : Option Bool
  qa_outlier_speed : Option Bool
  qa_is_fare_mismatch : Option Bool
  qa_is_adjustment : Option Bool
deriving DecidableEq

/-- Lines 68-81: coalesce all QA flags to strict booleans (the dtype
casts on the other columns are identities in the embedding). -/
def silverNormalize (r : SilverInRow) : SilverInRow :=
  { r with
    qa_in_file_window := some (r.qa_in_file_window.getD false)
    qa_outlier_distance := some (r.qa_outlier_distance.getD false)
    qa_outlier_speed := some (r.qa_outlier_speed.getD false)
    qa_is_fare_mismatch := some (r.qa_is_fare_mismatch.getD false)
    qa_is_adjustment := some (r.qa_is_adjustment.getD false) }

/-- `is_missing_crit` (lines 84-91). -/
def is_missing_crit (r : SilverInRow) : Option Bool :=
  kor (kor (kor (kor (kor
    (oIsNull r.pickup_at)
    (oIsNull r.dropoff_at))
    (oIsNull r.trip_distance_mi))
    (oIsNull r.total_amount))
    (kor (oIsNull r.pu_location_id) (oLE r.pu_location_id (some 0))))
    (kor (oIsNull r.do_location_id) (oLE r.do_location_id (some 0)))

/-- `is_admin` (line 93). -/
def is_admin (r : SilverInRow) : Option Bool := r.qa_is_adjustment

/-- `is_anomaly` (lines 94-98). -/
def is_anomaly (r : SilverInRow) : Option Bool :=
  kand (kor (kor (knot r.qa_in_file_window) r.qa_outlier_distance) r.qa_outlier_speed)
       (knot r.qa_is_fare_mismatch)

/-- `base_good` (line 101). -/
def base_good (r : SilverInRow) : Option Bool :=
  kand (knot (is_missing_crit r)) (knot (is_admin r))

/-- `lf_rejected = lf.filter(is_missing_crit)`: the filter keeps the rows
whose mask is true (a null mask drops the row). -/
def silver_rejected (rows : List SilverInRow) : List SilverInRow :=
  rows.filter (fun r => decide (is_missing_crit r = some true))

/-- `lf_admin = lf.filter((~is_missing_crit) & is_admin)`. -/
def silver_admin (rows : List SilverInRow) : List SilverInRow :=
  rows.filter (fun r => decide (kand (knot (is_missing_crit r)) (is_admin r) = some true))

/-- `lf_anom = lf.filter(base_good & is_anomaly)`. -/
def silver_anomalies (rows : List SilverInRow) : List SilverInRow :=
  rows.filter (fun r => decide (kand (base_good r) (is_anomaly r) = some true))

/-- `lf_clean = lf.filter(base_good & ~is_anomaly)` (fare mismatches stay). -/
def silver_clean (rows : List SilverInRow) : List SilverInRow :=
  rows.filter (fun r => decide (kand (base_good r) (knot (is_anomaly r)) = some true))

/-- `lf_fmiss = lf_clean.filter(qa_is_fare_mismatch)`. -/
def silver_fare_miss (rows : List SilverInRow) : List SilverInRow :=
  (silver_clean rows).filter (fun r => decide (r.qa_is_fare_mismatch = some true))

/-- The Bronze contract column set Silver validates against
(silver_split.py lines 39-54). -/
def EXPECTED_COLS : List String :=
  ["vendor_id", "pickup_at", "dropoff_at", "passenger_count",
   "trip_distance_mi", "rate_code_id", "store_and_fwd_flag",
   "pu_location_id", "do_location_id", "payment_type",
   "fare_amount", "extra", "mta_tax", "tip_amount", "tolls_amount",
   "improvement_surcharge", "congestion_surcharge", "airport_fee",
   "cbd_congestion_fee", "total_amount",
   "manualTotal", "duration_min", "speed_mph",
   "qa_in_file_window", "qa_outlier_distance", "qa_outlier_speed",
   "qa_is_fare_mismatch", "qa_is_adjustment",
   "dup_key", "qa_is_duplicate_in_file", "source_year", "source_month", "source_file"]

/-- The fatal schema report: it enumerates the missing and the extra
column names (silver_split.py lines 59-65). -/
structure SchemaError where
  missing : List String
  extra : List String
deriving DecidableEq

structure SilverOut where
  rejected : List SilverInRow
  admin : List SilverInRow
  anomalies : List SilverInRow
  clean : List SilverInRow
  fare_miss : List SilverInRow
deriving DecidableEq

def strLE (a b : String) : Prop := a ≤ b

instance : DecidableRel strLE := fun a b => by
  unfold strLE
  infer_instance

/-- `sorted(EXPECTED - names)`: the contract columns absent from the
artifact (the artifact's name set is its deduplicated name list). -/
def schemaMissing (cols : List String) : List String :=
  List.insertionSort strLE (EXPECTED_COLS.filter (fun c => decide (c ∉ cols.dedup)))

/-- `sorted(names - EXPECTED)`: the artifact columns outside the contract. -/
def schemaExtra (cols : List String) : List String :=
  List.insertionSort strLE ((cols.dedup).filter (fun c => decide (c ∉ EXPECTED_COLS)))

/-- `split_silver`: validate the artifact's column set against the
contract before anything is written; on mismatch fail with the
missing/extra report and produce no partition output.  Otherwise
normalize the QA flags and route the five partitions. -/
def split_silver (cols : List String) (rows : List SilverInRow) :
    Except SchemaError SilverOut :=
  if schemaMissing cols ≠ [] ∨ schemaExtra cols ≠ [] then
    .error ⟨schemaMissing cols, schemaExtra cols⟩
  else
    .ok { rejected := silver_rejected (rows.map silverNormalize)
          admin := silver_admin (rows.map silverNormalize)
          anomalies := silver_anomalies (rows.map silverNormalize)
          clean := silver_clean (rows.map silverNormalize)
          fare_miss := silver_fare_miss (rows.map silverNormalize) }

/-! ### Column-level model of money-column synthesis

`canonicalize` (common.py lines 88-118) and `ensure_money_columns`
(bronze_build.py lines 79-84) decide per *column* whether to synthesize a
missing monetary column, so this fragment is embedded at column
granularity: a frame is a height plus named columns of nullable cells.
`with_columns(pl.lit(v))` broadcasts the literal over the height. -/

structure Frame where
  height : Nat
  cols : List (String × List (Option ℚ))
deriving DecidableEq

def hasCol (f : Frame) (c : String) : Bool := f.cols.any (fun p => p.1 == c)

def setCol (f : Frame) (c : String) (v : List (Option ℚ)) : Frame :=
  if hasCol f c then
    { f with cols := f.cols.map (fun p => if p.1 == c then (c, v) else p) }
  else
    { f with cols := f.cols ++ [(c, v)] }

def getCol (f : Frame) (c : String) : Option (List (Option ℚ)) :=
  (f.cols.find? (fun p => p.1 == c)).map (fun p => p.2)

/-- The monetary set of common.py (lines 40-51): nine components plus
`total_amount`. -/
def COMMON_MONEY_COLS : List String :=
  ["fare_amount", "extra", "mta_tax", "tip_amount", "tolls_amount",
   "improvement_surcharge", "congestion_surcharge", "airport_fee",
   "cbd_congestion_fee", "total_amount"]

/-- The monetary set of bronze_build.py (lines 59-63): the nine
components. -/
def BRONZE_MONEY_COLS : List String :=
  ["fare_amount", "extra", "mta_tax", "tip_amount", "tolls_amount",
   "improvement_surcharge", "congestion_surcharge", "airport_fee",
   "cbd_congestion_fee"]

/-- common.py lines 109-112 (the money-synthesis step of `canonicalize`):
each monetary column absent from the input is added as
`pl.lit(None).cast(pl.Float64)` — an all-null column. -/
def canonicalize_money_fill (f : Frame) : Frame :=
  COMMON_MONEY_COLS.foldl
    (fun acc c => if hasCol acc c then acc else setCol acc c (List.replicate acc.height none))
    f

/-- bronze_build.py lines 79-84: each monetary column absent from the
frame is added as `pl.lit(0.0)` — an all-zero column. -/
def ensure_money_columns (f : Frame) : Frame :=
  BRONZE_MONEY_COLS.foldl
    (fun acc c => if hasCol acc c then acc else setCol acc c (List.replicate acc.height (some 0)))
    f

/-! ### Boolean reductions of the Silver rule masks

On the rows Silver actually filters (the defensively normalized ones)
every rule mask is a non-null boolean; these functions name those
booleans. -/

/-- `pu/do location is null or non-positive`. -/
def nullOrNonPos (x : Option Int) : Bool :=
  match x with
  | none => true
  | some v => decide (v ≤ 0)

/-- The boolean value of `is_missing_crit` (never null). -/
def missingB (r : SilverInRow) : Bool :=
  ((((r.pickup_at.isNone || r.dropoff_at.isNone) || r.trip_distance_mi.isNone)
      || r.total_amount.isNone)
    || nullOrNonPos r.pu_location_id)
    || nullOrNonPos r.do_location_id

/-- The boolean value of `is_admin` after QA-flag normalization. -/
def adjB (r : SilverInRow) : Bool := r.qa_is_adjustment.getD false

/-- The boolean value of `is_anomaly` after QA-flag normalization. -/
def anomB (r : SilverInRow) : Bool :=
  (((! r.qa_in_file_window.getD false) || r.qa_outlier_distance.getD false)
      || r.qa_outlier_speed.getD false)
    && ! r.qa_is_fare_mismatch.getD false

/-! ### Spec-side formulation for the administrative-adjustment claim -/

/-- A nullable monetary cell holding a negative value. -/
def isNegCell (x : Option ℚ) : Prop := ∃ v, x = some v ∧ v < 0

/-- Follows the words of the spec for the administrative-adjustment
flag: any of the NINE monetary components (tip included) negative, or
total negative, or payment type in the no-charge/dispute/voided set.
Stated for comparison against `qa_is_adjustment`, which is translated
from the source. -/
def adjustment_spec_nine (r : CanonRow) : Prop :=
  isNegCell r.fare_amount ∨ isNegCell r.extra ∨ isNegCell r.mta_tax
    ∨ isNegCell r.tip_amount ∨ isNegCell r.tolls_amount
    ∨ isNegCell r.improvement_surcharge ∨ isNegCell r.congestion_surcharge
    ∨ isNegCell r.airport_fee ∨ isNegCell r.cbd_congestion_fee
    ∨ isNegCell r.total_amount
    ∨ (∃ p, r.payment_type = some p ∧ (p = 3 ∨ p = 4 ∨ p = 6))

/-! ### Concrete records and files used to evaluate the model -/

/-- A record with every nullable cell null. -/
def blankRow : CanonRow :=
  { vendor_id := none, pickup_at := none, dropoff_at := none,
    passenger_count := none, trip_distance_mi := none, rate_code_id := none,
    store_and_fwd_flag := none, pu_location_id := none, do_location_id := none,
    payment_type := none, fare_amount := none, extra := none, mta_tax := none,
    tip_amount := none, tolls_amount := none, improvement_surcharge := none,
    total_amount := none, congestion_surcharge := none, airport_fee := none,
    cbd_congestion_fee := none, source_file := "" }

/-- A record whose only negative monetary component is the tip, with a
card payment type (outside the no-charge/dispute/voided set). -/
def tipOnlyNegativeRow : CanonRow :=
  { blankRow with
    tip_amount := some (-1), fare_amount := some 0, extra := some 0,
    mta_tax := some 0, tolls_amount := some 0, improvement_surcharge := some 0,
    congestion_surcharge := some 0, airport_fee := some 0,
    cbd_congestion_fee := some 0, total_amount := some 0,
    payment_type := some 1 }

/-- A ten-minute, two-mile trip. -/
def shortTripRow : CanonRow :=
  { blankRow with
    pickup_at := some 0, dropoff_at := some 600000000,
    trip_distance_mi := some 2 }

/-- Pickup and dropoff exactly at file-start minus 2 days for 2024-01. -/
def windowEdgeInsideRow : CanonRow :=
  { blankRow with
    pickup_at := some (usOfCivil 2024 1 1 - 2 * usPerDay),
    dropoff_at := some (usOfCivil 2024 1 1 - 2 * usPerDay) }

/-- Pickup at file-start minus 3 days for 2024-01 (dropoff inside). -/
def windowEdgeOutsideRow : CanonRow :=
  { blankRow with
    pickup_at := some (usOfCivil 2024 1 1 - 3 * usPerDay),
    dropoff_at := some (usOfCivil 2024 1 1 - 2 * usPerDay) }

/-- A fully populated January 2024 record. -/
def januaryTripRow : CanonRow :=
  { blankRow with
    vendor_id := some 1,
    pickup_at := some (usOfCivil 2024 1 15 ),
    dropoff_at := some (usOfCivil 2024 1 15 + 600000000),
    trip_distance_mi := some 2, pu_location_id := some 41,
    do_location_id := some 55, payment_type := some 1,
    fare_amount := some 10, total_amount := some 10 }

/-- An input file holding the same record twice: one exact-duplicate pair. -/
def duplicatePairFile : RawFile :=
  { name := "yellow_tripdata_2024-01.parquet",
    rows := [januaryTripRow, januaryTripRow] }

/-- A single-record input file. -/
def singleRowFile : RawFile :=
  { name := "yellow_tripdata_2024-01.parquet", rows := [januaryTripRow] }

def fileA : RawFile := { name := "a_tripdata_2024-01.parquet", rows := [januaryTripRow] }

def fileB : RawFile := { name := "b_tripdata_2024-02.parquet", rows := [] }

/-- A raw frame of two records carrying only a fare column: every other
monetary column is entirely absent. -/
def fareOnlyFrame : Frame :=
  { height := 2, cols := [("fare_amount", [some 10, some 5])] }

/-- The single Bronze row the builder writes for `singleRowFile`. -/
def singleDerivedRow : BronzeRow :=
  markDup [deriveRow januaryTripRow 2024 1 "yellow_tripdata_2024-01.parquet"]
          (deriveRow januaryTripRow 2024 1 "yellow_tripdata_2024-01.parquet")

/-! ### Helper lemmas on the three-valued logic -/

theorem fillF_eq_true : ∀ x : Option Bool, fillF x = true ↔ x = some true := by
  decide

theorem kor_eq_true : ∀ a b : Option Bool, kor a b = some true ↔ a = some true ∨ b = some true := by
  decide

theorem kand_eq_true : ∀ a b : Option Bool, kand a b = some true ↔ a = some true ∧ b = some true := by
  decide

theorem kor_some (a b : Bool) : kor (some a) (some b) = some (a || b) := by
  cases a <;> cases b <;> rfl

theorem kand_some (a b : Bool) : kand (some a) (some b) = some (a && b) := by
  cases a <;> cases b <;> rfl

theorem knot_some (a : Bool) : knot (some a) = some (!a) := rfl

theorem oLT_some_true {α : Type} [LinearOrder α] (x : Option α) (c : α) :
    oLT x (some c) = some true ↔ ∃ v, x = some v ∧ v < c := by
  cases x <;> simp [oLT]

theorem oIsIn_eq_true (x : Option Int) (l : List Int) :
    oIsIn x l = some true ↔ ∃ v, x = some v ∧ v ∈ l := by
  cases x <;> simp [oIsIn]

theorem oBetweenCC_eq_true {α : Type} [LinearOrder α] (x : Option α) (lo hi : α) :
    oBetweenCC x lo hi = some true ↔ ∃ v, x = some v ∧ lo ≤ v ∧ v ≤ hi := by
  cases x <;> simp [oBetweenCC]

/-! ### Reductions of the Silver masks to plain booleans -/

theorem kor_null_nonpos (x : Option Int) :
    kor (oIsNull x) (oLE x (some 0)) = some (nullOrNonPos x) := by
  cases x with
  | none => rfl
  | some v =>
    rw [show oIsNull (some v) = some false from rfl,
        show oLE (some v) (some 0) = some (decide (v ≤ 0)) from rfl, kor_some]
    simp [nullOrNonPos]

theorem is_missing_crit_eq (r : SilverInRow) :
    is_missing_crit r = some (missingB r) := by
  unfold is_missing_crit missingB
  rw [kor_null_nonpos, kor_null_nonpos]
  simp only [oIsNull, kor_some]

theorem missing_norm (r : SilverInRow) :
    is_missing_crit (silverNormalize r) = some (missingB r) := by
  have h : is_missing_crit (silverNormalize r) = is_missing_crit r := rfl
  rw [h, is_missing_crit_eq]

theorem admin_norm (r : SilverInRow) :
    is_admin (silverNormalize r) = some (adjB r) := rfl

theorem anomaly_norm (r : SilverInRow) :
    is_anomaly (silverNormalize r) = some (anomB r) := by
  show kand (kor (kor (knot (some (r.qa_in_file_window.getD false)))
                      (some (r.qa_outlier_distance.getD false)))
                 (some (r.qa_outlier_speed.getD false)))
            (knot (some (r.qa_is_fare_mismatch.getD false))) = some (anomB r)
  rw [knot_some, knot_some, kor_some, kor_some, kand_some]
  rfl

theorem base_good_norm (r : SilverInRow) :
    base_good (silverNormalize r) = some ((! missingB r) && (! adjB r)) := by
  unfold base_good
  rw [missing_norm, admin_norm, knot_some, knot_some, kand_some]

theorem admin_mask_norm (r : SilverInRow) :
    kand (knot (is_missing_crit (silverNormalize r))) (is_admin (silverNormalize r))
      = some ((! missingB r) && adjB r) := by
  rw [missing_norm, admin_norm, knot_some, kand_some]

theorem clean_mask_norm (r : SilverInRow) :
    kand (base_good (silverNormalize r)) (knot (is_anomaly (silverNormalize r)))
      = some (((! missingB r) && (! adjB r)) && ! anomB r) := by
  rw [base_good_norm, anomaly_norm, knot_some, kand_some]

theorem anom_mask_norm (r : SilverInRow) :
    kand (base_good (silverNormalize r)) (is_anomaly (silverNormalize r))
      = some (((! missingB r) && (! adjB r)) && anomB r) := by
  rw [base_good_norm, anomaly_norm, kand_some]

theorem normalized_cond_sum (r : SilverInRow) :
    (if is_missing_crit (silverNormalize r) = some true then 1 else 0)
      + (if kand (knot (is_missing_crit (silverNormalize r))) (is_admin (silverNormalize r)) = some true then 1 else 0)
      + (if kand (base_good (silverNormalize r)) (knot (is_anomaly (silverNormalize r))) = some true then 1 else 0)
      + (if kand (base_good (silverNormalize r)) (is_anomaly (silverNormalize r)) = some true then 1 else 0) = 1 := by
  rw [admin_mask_norm, clean_mask_norm, anom_mask_norm, missing_norm]
  generalize missingB r = m
  generalize adjB r = a
  generalize anomB r = an
  revert m a an
  decide

theorem filter_four_partition {α : Type} (p1 p2 p3 p4 : α → Bool) :
    ∀ l : List α,
      (∀ x ∈ l, (if p1 x then 1 else 0) + (if p2 x then 1 else 0)
        + (if p3 x then 1 else 0) + (if p4 x then 1 else 0) = 1) →
      (l.filter p1).length + (l.filter p2).length + (l.filter p3).length
        + (l.filter p4).length = l.length := by
  intro l
  induction l with
  | nil => intro _; simp
  | cons x t ih =>
    intro h
    have hx := h x (List.mem_cons_self x t)
    have ht := ih (fun y hy => h y (List.mem_cons_of_mem x hy))
    cases h1 : p1 x <;> cases h2 : p2 x <;> cases h3 : p3 x <;> cases h4 : p4 x <;>
      simp [List.filter_cons, h1, h2, h3, h4] at hx ⊢ <;>
      omega

/-- C2: every record Silver routes lands in exactly one of
{rejected, administrative, clean, anomalous}: the four partition sizes
sum to the row total, per record exactly one routing mask evaluates to
true, and the fare-miss partition is contained in the clean partition —
for arbitrary nullable location ids and QA flags in the source rows. -/
theorem silver_partition_cover_disjoint_fare_miss_subset :
    ∀ rows : List SilverInRow,
      ((silver_rejected (rows.map silverNormalize)).length
        + (silver_admin (rows.map silverNormalize)).length
        + (silver_clean (rows.map silverNormalize)).length
        + (silver_anomalies (rows.map silverNormalize)).length = rows.length)
      ∧ (∀ r : SilverInRow,
          ([is_missing_crit (silverNormalize r),
            kand (knot (is_missing_crit (silverNormalize r))) (is_admin (silverNormalize r)),
            kand (base_good (silverNormalize r)) (knot (is_anomaly (silverNormalize r))),
            kand (base_good (silverNormalize r)) (is_anomaly (silverNormalize r))].countP
              (fun x => decide (x = some true))) = 1)
      ∧ silver_fare_miss (rows.map silverNormalize) ⊆ silver_clean (rows.map silverNormalize) := by
  intro rows
  refine ⟨?_, ?_, ?_⟩
  · have h := filter_four_partition
      (fun r => decide (is_missing_crit r = some true))
      (fun r => decide (kand (knot (is_missing_crit r)) (is_admin r) = some true))
      (fun r => decide (kand (base_good r) (knot (is_anomaly r)) = some true))
      (fun r => decide (kand (base_good r) (is_anomaly r) = some true))
      (rows.map silverNormalize) ?_
    · unfold silver_rejected silver_admin silver_clean silver_anomalies
      rw [h]
      simp
    · intro x hx
      obtain ⟨r, _, rfl⟩ := List.mem_map.mp hx
      have hsum := normalized_cond_sum r
      simp only [decide_eq_true_eq]
      exact hsum
  · intro r
    rw [admin_mask_norm, clean_mask_norm, anom_mask_norm, missing_norm]
    generalize missingB r = m
    generalize adjB r = a
    generalize anomB r = an
    revert m a an
    decide
  · unfold silver_fare_miss
    exact List.filter_subset' _

/-- C3 (as stated) is false on the code: a record whose only negative
monetary component is the tip, with every other component non-negative
and a payment type outside {3, 4, 6}, satisfies the spec's
nine-component predicate yet its `qa_is_adjustment` flag is false,
because the source's disjunction omits `tip_amount`. -/
theorem qa_is_adjustment_spec_nine_false :
    ¬ (∀ r : CanonRow, qa_is_adjustment r = true ↔ adjustment_spec_nine r) := by
  intro h
  have hspec : adjustment_spec_nine tipOnlyNegativeRow :=
    Or.inr (Or.inr (Or.inr (Or.inl ⟨-1, rfl, by norm_num⟩)))
  exact absurd ((h tipOnlyNegativeRow).mpr hspec) (by decide)

/-- C3 amended: `qa_is_adjustment` is true exactly when one of the EIGHT
monetary components other than `tip_amount` is negative, or
`total_amount` is negative, or the payment type is in {3, 4, 6};
a negative tip alone never sets the flag. -/
theorem qa_is_adjustment_iff_eight_components_or_payment :
    ∀ r : CanonRow, qa_is_adjustment r = true ↔
      (isNegCell r.total_amount ∨ isNegCell r.fare_amount ∨ isNegCell r.extra
        ∨ isNegCell r.mta_tax ∨ isNegCell r.tolls_amount
        ∨ isNegCell r.improvement_surcharge ∨ isNegCell r.congestion_surcharge
        ∨ isNegCell r.airport_fee ∨ isNegCell r.cbd_congestion_fee
        ∨ (∃ p, r.payment_type = some p ∧ (p = 3 ∨ p = 4 ∨ p = 6))) := by
  intro r
  unfold qa_is_adjustment
  rw [fillF_eq_true]
  simp only [kor_eq_true, oLT_some_true, oIsIn_eq_true, isNegCell,
    List.mem_cons, List.mem_singleton, List.not_mem_nil, or_false, or_assoc]

/-- C5: `duration_min` is the signed dropoff-minus-pickup difference in
minutes and is null when either timestamp is null; `speed_mph` is
`60 * distance / duration` when the duration is positive and null (never
zero) when the duration is null or non-positive. -/
theorem duration_speed_null_semantics :
    ∀ r : CanonRow,
      ((r.pickup_at = none ∨ r.dropoff_at = none) → durationMin r = none)
      ∧ (∀ p d : Int, r.pickup_at = some p → r.dropoff_at = some d →
          durationMin r = some (((d - p : Int) : ℚ) / 60000000))
      ∧ (durationMin r = none → speedMph r = none)
      ∧ (∀ q : ℚ, durationMin r = some q → q ≤ 0 → speedMph r = none)
      ∧ (∀ q x : ℚ, durationMin r = some q → 0 < q → r.trip_distance_mi = some x →
          speedMph r = some (60 * x / q)) := by
  intro r
  refine ⟨?_, ?_, ?_, ?_, ?_⟩
  · rintro (h | h)
    · unfold durationMin
      rw [h]
      cases r.dropoff_at <;> rfl
    · unfold durationMin
      rw [h]
  · intro p d hp hd
    unfold durationMin
    rw [hp, hd]
  · intro h
    unfold speedMph
    rw [h]
  · intro q hq hle
    unfold speedMph
    rw [hq]
    show (if 0 < q then r.trip_distance_mi.map (fun x => 60 * x / q) else none) = none
    rw [if_neg (not_lt.mpr hle)]
  · intro q x hq h0 hx
    unfold speedMph
    rw [hq]
    show (if 0 < q then r.trip_distance_mi.map (fun x => 60 * x / q) else none)
        = some (60 * x / q)
    rw [if_pos h0, hx]
    rfl

/-- C5 witness: a ten-minute two-mile trip has duration 10 minutes and
speed 12 mph. -/
theorem duration_speed_null_semantics_witness :
    durationMin shortTripRow = some 10 ∧ speedMph shortTripRow = some 12 := by
  have hdur : durationMin shortTripRow = some 10 := by
    simp only [durationMin, shortTripRow, blankRow]
    norm_num
  have h := (duration_speed_null_semantics shortTripRow).2.2.2.2 10 2 hdur (by norm_num) rfl
  refine ⟨hdur, ?_⟩
  rw [h]
  norm_num

/-- C6: the in-file-window flag is true exactly when both timestamps are
present and lie in the closed window
`[first-of-month - 2 days, first-of-next-month + 2 days]`; for 2024-01 a
pickup exactly 2 days before the month start is inside and one 3 days
before is outside. -/
theorem in_file_window_iff_closed_window_and_boundary :
    (∀ (r : CanonRow) (y m : Int),
      qa_in_file_window r y m = true ↔
        ((∃ p, r.pickup_at = some p ∧ (file_window y m).1 ≤ p ∧ p ≤ (file_window y m).2)
          ∧ (∃ d, r.dropoff_at = some d ∧ (file_window y m).1 ≤ d ∧ d ≤ (file_window y m).2)))
    ∧ qa_in_file_window windowEdgeInsideRow 2024 1 = true
    ∧ qa_in_file_window windowEdgeOutsideRow 2024 1 = false := by
  refine ⟨?_, by decide, by decide⟩
  intro r y m
  unfold qa_in_file_window
  rw [fillF_eq_true, kand_eq_true, oBetweenCC_eq_true, oBetweenCC_eq_true]

/-- C7: the fare-mismatch flag is true exactly when the total is present
and `|manualTotal - total_amount| > 0.50` (the tolerance is the fixed
constant 1/2, not a parameter of the flag), and `manualTotal` is the
null-as-zero sum, in particular 0 — not null — when all nine components
are null. -/
theorem fare_mismatch_iff_half_dollar_tolerance :
    ∀ r : CanonRow,
      (qa_is_fare_mismatch r = true ↔
        ∃ t, r.total_amount = some t ∧ (1 : ℚ) / 2 < |manualTotal r - t|)
      ∧ ((r.fare_amount = none ∧ r.extra = none ∧ r.mta_tax = none ∧ r.tip_amount = none
          ∧ r.tolls_amount = none ∧ r.improvement_surcharge = none
          ∧ r.congestion_surcharge = none ∧ r.airport_fee = none
          ∧ r.cbd_congestion_fee = none) → manualTotal r = 0) := by
  intro r
  constructor
  · unfold qa_is_fare_mismatch
    rw [fillF_eq_true]
    cases ht : r.total_amount <;> simp [ht]
  · rintro ⟨h1, h2, h3, h4, h5, h6, h7, h8, h9⟩
    simp [manualTotal, h1, h2, h3, h4, h5, h6, h7, h8, h9]

/-- C7 witness: the all-null record has `manualTotal` 0. -/
theorem fare_mismatch_manual_total_witness : manualTotal blankRow = 0 :=
  (fare_mismatch_iff_half_dollar_tolerance blankRow).2
    ⟨rfl, rfl, rfl, rfl, rfl, rfl, rfl, rfl, rfl⟩

/-- C1 fails on the code: after the sort, `is_duplicated` marks EVERY
occurrence of a non-unique dup_key (the first included) and the filter
then removes them all, so no first occurrence is retained.  A file
holding one exact-duplicate pair writes 0 rows where the claim (and the
source's own "keep first" comment) say 1; 100 records with 3 duplicate
pairs would write 94 rows, not 97. -/
theorem bronze_dedup_drops_every_occurrence :
    build_bronze [duplicatePairFile] [] = Except.ok []
      ∧ artifactRowCount (build_bronze [duplicatePairFile] []) = 0 :=
  ⟨rfl, rfl⟩

/-- C4 fails on the code: for a raw file entirely missing a monetary
column, the money-fill step of `canonicalize` synthesizes it as all-null
first, so `ensure_money_columns` finds it present and never applies its
all-zero literal — the Bronze artifact carries the column as all-null,
not all-zero. -/
theorem absent_money_column_all_null :
    getCol (ensure_money_columns (canonicalize_money_fill fareOnlyFrame)) "airport_fee"
        = some [none, none]
      ∧ getCol (ensure_money_columns (canonicalize_money_fill fareOnlyFrame)) "airport_fee"
        ≠ some [some 0, some 0] := by
  refine ⟨rfl, ?_⟩
  intro h
  rw [show getCol (ensure_money_columns (canonicalize_money_fill fareOnlyFrame)) "airport_fee"
        = some [none, none] from rfl] at h
  exact absurd h (by decide)

/-! ### Helper lemmas for the per-file dedup filter -/

theorem processFile_flag_false (f : RawFile) (rows : List BronzeRow)
    (h : processFile f = Except.ok rows) :
    ∀ r ∈ rows, r.qa_is_duplicate_in_file = false := by
  unfold processFile at h
  cases hp : parse_year_month_from_filename f.name with
  | none =>
    rw [hp] at h
    exact absurd h (by simp)
  | some ym =>
    obtain ⟨y, m⟩ := ym
    rw [hp] at h
    injection h with h2
    subst h2
    intro r hr
    have hpred := (List.mem_filter.mp hr).2
    simpa using hpred

theorem processAll_flag_false : ∀ (fs : List RawFile) (rows : List BronzeRow),
    processAll fs = Except.ok rows → ∀ r ∈ rows, r.qa_is_duplicate_in_file = false := by
  intro fs
  induction fs with
  | nil =>
    intro rows h r hr
    unfold processAll at h
    injection h with h2
    subst h2
    exact absurd hr (List.not_mem_nil r)
  | cons f rest ih =>
    intro rows h r hr
    unfold processAll at h
    cases hf : processFile f with
    | error e =>
      rw [hf] at h
      exact absurd h (by simp)
    | ok frows =>
      rw [hf] at h
      cases hrest : processAll rest with
      | error e =>
        rw [hrest] at h
        exact absurd h (by simp)
      | ok more =>
        rw [hrest] at h
        injection h with h2
        subst h2
        rcases List.mem_append.mp hr with hm | hm
        · exact processFile_flag_false f frows hf r hm
        · exact ih more hrest r hm

/-- C10: every row of a Bronze artifact the builder writes carries
`qa_is_duplicate_in_file = false` — all rows marked as duplicates were
filtered out before the write. -/
theorem written_rows_never_flagged_duplicate :
    ∀ (files : List RawFile) (prior rows : List BronzeRow),
      build_bronze files prior = Except.ok rows →
      ∀ r ∈ rows, r.qa_is_duplicate_in_file = false := by
  intro files prior rows h
  unfold build_bronze at h
  by_cases he : files.isEmpty
  · rw [if_pos he] at h
    exact absurd h (by simp)
  · rw [if_neg he] at h
    exact processAll_flag_false _ rows h

/-- C10 witness: the one row written for a single-record January 2024
file has a false duplicate flag. -/
theorem written_rows_never_flagged_duplicate_witness :
    singleDerivedRow.qa_is_duplicate_in_file = false :=
  written_rows_never_flagged_duplicate [singleRowFile] [] [singleDerivedRow] rfl
    singleDerivedRow (List.mem_singleton.mpr rfl)

/-! ### Helper lemmas for the Silver schema gate -/

theorem mem_schemaMissing (cols : List String) (x : String) :
    x ∈ schemaMissing cols ↔ (x ∈ EXPECTED_COLS ∧ x ∉ cols) := by
  unfold schemaMissing
  rw [List.mem_insertionSort, List.mem_filter]
  simp [List.mem_dedup]

theorem mem_schemaExtra (cols : List String) (x : String) :
    x ∈ schemaExtra cols ↔ (x ∈ cols ∧ x ∉ EXPECTED_COLS) := by
  unfold schemaExtra
  rw [List.mem_insertionSort, List.mem_filter]
  simp [List.mem_dedup]

/-- C8: whenever the Bronze artifact's column set misses a contract
column or carries an unexpected one, `split_silver` fails with the
schema report — whose missing and extra lists enumerate exactly the
missing and the unexpected names — and produces no partition output
(the error branch carries no `SilverOut`). -/
theorem silver_schema_mismatch_fatal_report :
    ∀ (cols : List String) (rows : List SilverInRow) (c : String),
      ((c ∈ EXPECTED_COLS ∧ c ∉ cols) ∨ (c ∈ cols ∧ c ∉ EXPECTED_COLS)) →
      ∃ e : SchemaError, split_silver cols rows = Except.error e ∧
        (∀ x : String, x ∈ e.missing ↔ (x ∈ EXPECTED_COLS ∧ x ∉ cols)) ∧
        (∀ x : String, x ∈ e.extra ↔ (x ∈ cols ∧ x ∉ EXPECTED_COLS)) := by
  intro cols rows c hc
  have hcond : schemaMissing cols ≠ [] ∨ schemaExtra cols ≠ [] := by
    rcases hc with h | h
    · exact Or.inl (List.ne_nil_of_mem ((mem_schemaMissing cols c).mpr h))
    · exact Or.inr (List.ne_nil_of_mem ((mem_schemaExtra cols c).mpr h))
  refine ⟨⟨schemaMissing cols, schemaExtra cols⟩, ?_, ?_, ?_⟩
  · unfold split_silver
    rw [if_pos hcond]
  · intro x
    exact mem_schemaMissing cols x
  · intro x
    exact mem_schemaExtra cols x

/-- C8 witness: an artifact missing exactly the `dup_key` column makes
Silver fail with the enumerating report. -/
theorem silver_schema_mismatch_fatal_report_witness :
    ∃ e : SchemaError,
      split_silver (EXPECTED_COLS.erase "dup_key") [] = Except.error e ∧
      (∀ x : String, x ∈ e.missing ↔ (x ∈ EXPECTED_COLS ∧ x ∉ EXPECTED_COLS.erase "dup_key")) ∧
      (∀ x : String, x ∈ e.extra ↔ (x ∈ EXPECTED_COLS.erase "dup_key" ∧ x ∉ EXPECTED_COLS)) :=
  silver_schema_mismatch_fatal_report (EXPECTED_COLS.erase "dup_key") [] "dup_key"
    (Or.inl ⟨by decide, by decide⟩)

/-! ### Helper lemma: a sorted permutation of files with distinct names
is unique -/

theorem sorted_files_unique : ∀ (l1 l2 : List RawFile), l1.Perm l2 →
    (l1.map RawFile.name).Nodup → l1.Sorted fileLE → l2.Sorted fileLE → l1 = l2 := by
  intro l1
  induction l1 with
  | nil =>
    intro l2 hp _ _ _
    exact (hp.symm.eq_nil).symm
  | cons a t ih =>
    intro l2 hp hnd hs1 hs2
    cases l2 with
    | nil => exact absurd hp.eq_nil (List.cons_ne_nil a t)
    | cons b t2 =>
      have hab : a = b := by
        by_contra hne
        have hbmem : b ∈ a :: t := hp.mem_iff.mpr (List.mem_cons_self b t2)
        have hamem : a ∈ b :: t2 := hp.mem_iff.mp (List.mem_cons_self a t)
        have hbt : b ∈ t := by
          rcases List.mem_cons.mp hbmem with h | h
          · exact absurd h.symm hne
          · exact h
        have hat2 : a ∈ t2 := by
          rcases List.mem_cons.mp hamem with h | h
          · exact absurd h hne
          · exact h
        have h1 : fileLE a b := (List.sorted_cons.mp hs1).1 b hbt
        have h2 : fileLE b a := (List.sorted_cons.mp hs2).1 a hat2
        have hname : a.name = b.name := le_antisymm h1 h2
        have hmem2 : a.name ∈ t.map RawFile.name := by
          rw [hname]
          exact List.mem_map_of_mem RawFile.name hbt
        exact (List.nodup_cons.mp hnd).1 hmem2
      subst hab
      have hperm2 : t.Perm t2 := hp.cons_inv
      rw [ih t2 hperm2 (List.nodup_cons.mp hnd).2 (List.sorted_cons.mp hs1).2
        (List.sorted_cons.mp hs2).2]

/-- C9: the Bronze build is deterministic — for the same set of input
files (any listing order the directory scan may produce, names distinct
within a directory) and any pre-existing output artifact, two runs
produce the same artifact, hence identical written row counts and
identical aggregate revenue; the files are processed in sorted filename
order and the prior artifact is replaced, never appended to. -/
theorem bronze_build_deterministic :
    ∀ (f1 f2 : List RawFile) (p1 p2 : List BronzeRow),
      f1.Perm f2 → (f1.map RawFile.name).Nodup →
      build_bronze f1 p1 = build_bronze f2 p2
        ∧ artifactRowCount (build_bronze f1 p1) = artifactRowCount (build_bronze f2 p2)
        ∧ artifactRevenue (build_bronze f1 p1) = artifactRevenue (build_bronze f2 p2) := by
  intro f1 f2 p1 p2 hperm hnd
  have hsort : List.insertionSort fileLE f1 = List.insertionSort fileLE f2 := by
    apply sorted_files_unique
    · exact (List.perm_insertionSort fileLE f1).trans
        (hperm.trans (List.perm_insertionSort fileLE f2).symm)
    · exact ((List.perm_insertionSort fileLE f1).map RawFile.name).nodup_iff.mpr hnd
    · exact List.sorted_insertionSort fileLE f1
    · exact List.sorted_insertionSort fileLE f2
  have hlen := hperm.length_eq
  have hempty : f1.isEmpty = f2.isEmpty := by
    cases f1 <;> cases f2 <;> simp_all
  have hmain : build_bronze f1 p1 = build_bronze f2 p2 := by
    unfold build_bronze
    rw [hsort, hempty]
  exact ⟨hmain, by rw [hmain], by rw [hmain]⟩

/-- C9 witness: swapping the listing order of two distinct files and
changing the prior artifact leaves the built artifact unchanged. -/
theorem bronze_build_deterministic_witness :
    build_bronze [fileA, fileB] [] = build_bronze [fileB, fileA] [] :=
  (bronze_build_deterministic [fileA, fileB] [fileB, fileA] [] []
    (by decide) (by decide)).1
